import Mathlib

/-!
Verification of the Archer incident-report pipeline
(`archer_api.py`, `authentication.py`, `incident-report-timer/__init__.py`).

The Python code is shallowly embedded: each source function becomes a Lean
definition over an explicit model of the data it manipulates.

* XML element trees (`xml.etree.ElementTree`) are modelled by the inductive
  `Xml`: an element has a tag, an attribute dictionary, optional text, and a
  list of children.  `findall('.//T')` becomes a filter over the proper
  descendants in document (preorder) order; `find` takes the head.
* Python dictionaries (with insertion order and overwrite-on-duplicate-key)
  are modelled by association lists together with `dictInsert` / `dictGet`.
* Python `None`-or-string values (`element.get(...)`, `element.text`) are
  modelled by `Option String`; Python truthiness of such a value
  (`if extracted_list_value:`) is `optStrTruthy`, which is `false` exactly on
  `None` and the empty string.
* `requests` responses are modelled by their status code together with the
  result of the pure post-processing the code applies to the body
  (`response_to_xml`, which either yields the inner XML document or raises).
-/

set_option autoImplicit false

namespace Archer

/-- Model of an `xml.etree.ElementTree` element: tag, attributes (a Python
dict, here an association list in insertion order), the element's text
(`None` or a string), and the child elements. -/
inductive Xml where
  | elem (tag : String) (attrs : List (String × String)) (text : Option String)
      (children : List Xml)
deriving Repr

def Xml.tag : Xml → String
  | .elem t _ _ _ => t

def Xml.attrs : Xml → List (String × String)
  | .elem _ a _ _ => a

def Xml.text : Xml → Option String
  | .elem _ _ tx _ => tx

def Xml.children : Xml → List Xml
  | .elem _ _ _ cs => cs

/-- `element.get(key)`: first binding of `key` in the attribute dict. -/
def Xml.attr (x : Xml) (key : String) : Option String :=
  (x.attrs.find? (fun p => p.1 = key)).map Prod.snd

mutual

/-- All proper descendants of an element, in document (preorder) order.
This is the node set traversed by an ElementTree `.//` path step. -/
def Xml.descendants : Xml → List Xml
  | .elem _ _ _ cs => descendantsList cs

/-- Preorder listing of a forest: each root followed by its descendants. -/
def descendantsList : List Xml → List Xml
  | [] => []
  | c :: cs => c :: (Xml.descendants c ++ descendantsList cs)

end

/-- `element.findall('.//' + tag)`: every descendant with the given tag,
in document order. -/
def findallDesc (x : Xml) (tag : String) : List Xml :=
  x.descendants.filter (fun e => e.tag = tag)

/-- `element.find('.//' + tag)`: the first descendant with the given tag,
or `None`. -/
def findDesc (x : Xml) (tag : String) : Option Xml :=
  (findallDesc x tag).head?

/-- `element.find('.//' + outer + '/' + inner)`: the first `inner`-tagged
child of an `outer`-tagged descendant, in document order. -/
def findDescChild (x : Xml) (outer inner : String) : Option Xml :=
  ((findallDesc x outer).flatMap
    (fun e => e.children.filter (fun c => c.tag = inner))).head?

/-- Python dict write `d[k] = v`: overwrite in place if the key is present,
otherwise append, preserving insertion order. -/
def dictInsert {K V : Type} [DecidableEq K] (d : List (K × V)) (k : K) (v : V) :
    List (K × V) :=
  if d.any (fun p => p.1 = k) then
    d.map (fun p => if p.1 = k then (k, v) else p)
  else
    d ++ [(k, v)]

/-- Python dict read `d.get(k)`: value of the first binding, if any. -/
def dictGet {K V : Type} [DecidableEq K] (d : List (K × V)) (k : K) : Option V :=
  (d.find? (fun p => p.1 = k)).map Prod.snd

/-- Python `str.strip()` with no argument: drop whitespace characters from
both ends (the model restricts "whitespace" to the ASCII whitespace the
payloads contain). -/
def pyStrip (s : String) : String :=
  ⟨((s.data.dropWhile Char.isWhitespace).reverse.dropWhile Char.isWhitespace).reverse⟩

/-- The idiom `x.text.strip() if x.text else ''`: `None` and the empty string
give `''`; otherwise the text is trimmed of surrounding whitespace. -/
def pyTextStripOrEmpty (t : Option String) : String :=
  match t with
  | none => ""
  | some s => if s = "" then "" else pyStrip s

/-- Python truthiness of a `None`-or-string value: false exactly on `None`
and the empty string. -/
def optStrTruthy (t : Option String) : Bool :=
  match t with
  | none => false
  | some s => s ≠ ""

/-- f-string rendering of a `None`-or-string value (`f'Field_{field_id}'`
prints `None` for `None`). -/
def fStr (t : Option String) : String :=
  match t with
  | none => "None"
  | some s => s

/-- A field schema: the dict built by `get_report_headers`, keyed by the
`id` attribute (possibly `None`) with the `name` attribute as value. -/
abbrev Schema := List (Option String × Option String)

/-- A normalized record: the dict built per `Record` element, keyed by the
resolved field name (possibly `None`), with string values. -/
abbrev Rec := List (Option String × String)

/-- `ArcherAPI.get_report_headers`: walk every `FieldDefinition` descendant
and map its `id` attribute to its `name` attribute; later duplicates
overwrite earlier ones. -/
def get_report_headers (xml_tree : Xml) : Schema :=
  (findallDesc xml_tree "FieldDefinition").foldl
    (fun d field => dictInsert d (field.attr "id") (field.attr "name")) []

/-- `extract_list_value` (inner helper of `get_report_records`): the
`displayName` attribute of the first `ListValues/ListValue` descendant,
`None` when there is no such element or no such attribute. -/
def extract_list_value (field : Xml) : Option String :=
  match findDescChild field "ListValues" "ListValue" with
  | some list_value_element => list_value_element.attr "displayName"
  | none => none

/-- `extract_reference`: for the first `Reference` descendant, its trimmed
text (`''` when the text is `None` or empty); `None` when there is no
`Reference` descendant. -/
def extract_reference (field : Xml) : Option String :=
  match findDesc field "Reference" with
  | some reference_element => some (pyTextStripOrEmpty reference_element.text)
  | none => none

/-- The user data extracted by `extract_users`. -/
structure UserData where
  email : String
  firstName : String
  lastName : String
deriving Repr, DecidableEq

/-- `extract_users`: for the first `Users/User` descendant, its trimmed text
as email plus the `firstName` / `lastName` attributes (defaulting to `''`);
`None` when there is no such element. -/
def extract_users (field : Xml) : Option UserData :=
  match findDescChild field "Users" "User" with
  | some user_element =>
      some { email := pyTextStripOrEmpty user_element.text
             firstName := (user_element.attr "firstName").getD ""
             lastName := (user_element.attr "lastName").getD "" }
  | none => none

/-- The field name used for a `Field` element:
`report_headers.get(field_id, f'Field_{field_id}')`. -/
def resolveFieldName (report_headers : Schema) (field : Xml) : Option String :=
  match dictGet report_headers (field.attr "id") with
  | some field_name => field_name
  | none => some ("Field_" ++ fStr (field.attr "id"))

/-- The body of the per-`Field` loop of `get_report_records`: compute the
field's value by the text / list-value / reference / user precedence and
write it (and, for a user, the `_FirstName` / `_LastName` entries) into the
record dict. -/
def processField (report_headers : Schema) (record_dict : Rec) (field : Xml) :
    Rec :=
  let field_value := pyTextStripOrEmpty field.text
  let field_name := resolveFieldName report_headers field
  if field_value = "" then
    let extracted_list_value := extract_list_value field
    let extracted_reference := extract_reference field
    let extracted_user := extract_users field
    if optStrTruthy extracted_list_value then
      dictInsert record_dict field_name (extracted_list_value.getD "")
    else if optStrTruthy extracted_reference then
      dictInsert record_dict field_name (extracted_reference.getD "")
    else
      match extracted_user with
      | some u =>
          let d1 := dictInsert record_dict
            (some (fStr field_name ++ "_FirstName")) u.firstName
          let d2 := dictInsert d1
            (some (fStr field_name ++ "_LastName")) u.lastName
          dictInsert d2 field_name u.email
      | none => dictInsert record_dict field_name field_value
  else
    dictInsert record_dict field_name field_value

/-- `ArcherAPI.get_report_records`: one flat record per `Record` descendant,
each built by folding `processField` over the record's `Field` descendants
in document order. -/
def get_report_records (xml_tree : Xml) (report_headers : Schema) :
    List Rec :=
  (findallDesc xml_tree "Record").map
    (fun record =>
      (findallDesc record "Field").foldl (processField report_headers) [])

/-- The SOAP request body rendered by `ArcherAPI.archer_incident_report_xml`:
a fixed template with three values substituted, represented by those values. -/
structure SoapRequest where
  archer_token : String
  archer_incident_report_guid : String
  archer_page_number : Nat
deriving Repr, DecidableEq

/-- `ArcherAPI.archer_incident_report_xml`: substitute token, report GUID and
page number into the request template. -/
def archer_incident_report_xml (archer_token archer_incident_report_guid : String)
    (archer_page_number : Nat) : SoapRequest :=
  ⟨archer_token, archer_incident_report_guid, archer_page_number⟩

/-- A response of the search endpoint to one page request: the HTTP status
code, together with the outcome of `response_to_xml` on the body text — the
inner XML document when the body unwraps, or the structural error
(`ParseError` / `AttributeError`) that `response_to_xml` raises when the outer
document is malformed, the result element is absent, or the inner text is
malformed. -/
structure PageResponse where
  status : Nat
  unwrapped : Except String Xml

/-- A response with HTTP status 200 whose body unwraps to `p`. -/
def okPage (p : Xml) : PageResponse :=
  ⟨200, .ok p⟩

/-- Outcome of `fetch_all_report_pages`: the returned table (or the error
that propagated), plus a ghost trace of the page requests issued and a ghost
count of the pages that contributed records. -/
structure FetchResult where
  result : Except String (List Rec)
  requests : List SoapRequest
  dataPages : Nat
deriving Repr

/-- The `while True` loop of `fetch_all_report_pages`.  The server is
modelled by the list of responses it returns to pages 1, 2, …; an exhausted
list is a session the model does not cover, reported as an error so that a
returned table always comes from a loop that broke at an empty page.  Each
iteration renders the request, unwraps the response (an unwrap error
propagates), breaks when the page holds no `Record`, and otherwise prepends
the page's normalized records to the accumulated table
(`pd.concat([df, final_df])` places the new page first). -/
def fetch_loop (archer_token archer_incident_report_guid : String)
    (server : List PageResponse) (archer_page_number : Nat)
    (final_df : List Rec) (requests : List SoapRequest) (dataPages : Nat) :
    FetchResult :=
  match server with
  | [] => ⟨.error "page response not modelled", requests, dataPages⟩
  | response :: rest =>
      let requests := requests ++
        [archer_incident_report_xml archer_token archer_incident_report_guid
          archer_page_number]
      match response.unwrapped with
      | .error e => ⟨.error e, requests, dataPages⟩
      | .ok xml_response =>
          if (findallDesc xml_response "Record").isEmpty then
            ⟨.ok final_df, requests, dataPages⟩
          else
            fetch_loop archer_token archer_incident_report_guid rest
              (archer_page_number + 1)
              (get_report_records xml_response (get_report_headers xml_response)
                ++ final_df)
              requests (dataPages + 1)

/-- `ArcherAPI.fetch_all_report_pages`: run the page loop from page 1 with an
empty table.  The `url` is where the requests are posted; the server model
stands for that endpoint, so the url does not otherwise enter the result. -/
def fetch_all_report_pages (archer_token archer_incident_report_guid url : String)
    (server : List PageResponse) : FetchResult :=
  let _ := url
  fetch_loop archer_token archer_incident_report_guid server 1 [] [] 0

/-- The authentication response: HTTP status code, and the session token the
200-body parses to (the `CreateUserSessionFromInstanceResult` text). -/
structure AuthResponse where
  status : Nat
  sessionToken : String

/-- Whether the first list is an initial segment of the second. -/
def charsStartWith : List Char → List Char → Bool
  | [], _ => true
  | _ :: _, [] => false
  | n :: ns, h :: hs => n = h && charsStartWith ns hs

/-- Whether the first list occurs as a contiguous sublist of the second. -/
def charsContain (needle : List Char) : List Char → Bool
  | [] => needle.isEmpty
  | h :: hs => charsStartWith needle (h :: hs) || charsContain needle hs

/-- Python `'uat' in s`. -/
def containsUat (s : String) : Bool :=
  charsContain "uat".data s.data

/-- `Authenticator.archer_auth_token`: three secret-vault lookups (each may
raise, modelled by `Except` and the sequencing of the `match`es), then the
handshake POST.  A 200 response yields the parsed session token; any other
status yields the string `"Error: <status>"` — returned normally, not
raised. -/
def archer_auth_token (vault : String → Except String String)
    (archer_url : String) (response : AuthResponse) : Except String String :=
  let password_key := if containsUat archer_url then "archer-dev-password"
    else "archer-prod-password"
  let instance_key := if containsUat archer_url then "archer-dev-instance"
    else "archer-prod-instance"
  match vault password_key with
  | .error e => .error e
  | .ok _password =>
    match vault instance_key with
    | .error e => .error e
    | .ok _instance_id =>
      match vault "archer-username" with
      | .error e => .error e
      | .ok _username =>
        if response.status = 200 then
          .ok response.sessionToken
        else
          .ok ("Error: " ++ toString response.status)

/-- Proleptic-Gregorian day number of a civil date with year ≥ 1.  Normalized
pandas timestamps are modelled by their day numbers, so a difference of
normalized timestamps taken `.dt.days` is a difference of day numbers. -/
def daysFromCivil (y m d : Nat) : Nat :=
  let yAdj := if m ≤ 2 then y - 1 else y
  let era := yAdj / 400
  let yoe := yAdj % 400
  let mp := (m + 9) % 12
  let doy := (153 * mp + 2) / 5 + d - 1
  let doe := yoe * 365 + yoe / 4 - yoe / 100 + doy
  era * 146097 + doe

/-- One row of the `Days Open` assignment
`np.where(pd.isnull(closed), (today - created).days, (closed - created).days)`:
the row's value is `closed - created` in days when the `Date/Time Closed`
entry is non-null, else `today - created`; a null (`NaT`) `Date Created`
makes either chosen branch `NaN` (`none`). -/
def daysOpenRow (today : Nat) (dateCreated dateTimeClosed : Option Nat) :
    Option Int :=
  match dateCreated with
  | none => none
  | some created =>
      match dateTimeClosed with
      | none => some ((today : Int) - (created : Int))
      | some closed => some ((closed : Int) - (created : Int))

/-- The derived `Days Open` column over the table's
(`Date Created`, `Date/Time Closed`) column pair. -/
def daysOpenColumn (today : Nat) (rows : List (Option Nat × Option Nat)) :
    List (Option Int) :=
  rows.map (fun r => daysOpenRow today r.1 r.2)

/-- A cell of the enriched table: an original string cell (`none` is the
`NaN` with which pandas fills a column a record lacks), a parsed and
normalized date (`none` is `NaT`), or a `Days Open` value (`none` is the
`NaN` a `NaT` creation date propagates). -/
inductive Cell where
  | str : Option String → Cell
  | date : Option Nat → Cell
  | days : Option Int → Cell
deriving Repr, DecidableEq

/-- A row of the enriched table, as a dict over the table's column labels. -/
abbrev EnrichedRow := List (Option String × Cell)

/-- Python `'Date' in col` over a string column label (the substring test).
A `None` label makes the membership test itself raise `TypeError`; that
run-killing case is checked separately in `enrichTable`, so this function is
only consulted for string labels. -/
def colHasDate : Option String → Bool
  | none => false
  | some s => charsContain "Date".data s.data

/-- The column labels of the `DataFrame` assembled from the fetched records:
the union of the records' keys, in order of first appearance. -/
def dfColumns (df : List Rec) : List (Option String) :=
  df.foldl
    (fun cols r =>
      r.foldl
        (fun cols p => if cols.any (fun c => c = p.1) then cols
          else cols ++ [p.1])
        cols)
    []

/-- The parsed, normalized value of row `r` in date column `col`:
`pd.to_datetime(cell, errors='coerce', dayfirst=True).dt.normalize()`.
The library parser is the oracle `parseDate` (`errors='coerce'` maps an
unparseable string to `NaT`); a cell pandas filled with `NaN` (record
without that key) also coerces to `NaT`. -/
def parsedDateCell (parseDate : String → Option Nat) (r : Rec)
    (col : Option String) : Option Nat :=
  (dictGet r col).bind parseDate

/-- One row after `main`'s enrichment (`__init__.py:54-61`): every column of
the table in order, with each date-named column replaced by its parsed
value, then the `Days Open` assignment `df['Days Open'] = np.where(...)` —
a dict write, overwriting in place or appending — computed from the parsed
`Date Created` / `Date/Time Closed` columns. -/
def enrichRow (parseDate : String → Option Nat) (today : Nat)
    (cols : List (Option String)) (r : Rec) : EnrichedRow :=
  dictInsert
    (cols.map (fun col =>
      if colHasDate col then (col, Cell.date (parsedDateCell parseDate r col))
      else (col, Cell.str (dictGet r col))))
    (some "Days Open")
    (Cell.days (daysOpenRow today
      (parsedDateCell parseDate r (some "Date Created"))
      (parsedDateCell parseDate r (some "Date/Time Closed"))))

/-- `main`'s post-fetch enrichment stage (`__init__.py:50-62`), with its two
uncaught, run-killing exceptions as `none`: the date-column comprehension
`'Date' in col` raises `TypeError` on a `None` column label, and the
`Days Open` computation reads `df['Date/Time Closed']` and
`df['Date Created']`, raising `KeyError` when either column is absent from
the table (also the case for an empty table, which has no columns). -/
def enrichTable (parseDate : String → Option Nat) (today : Nat)
    (df : List Rec) : Option (List EnrichedRow) :=
  let cols := dfColumns df
  if cols.any (fun c => c.isNone) then
    none
  else if !cols.any (fun c => c = some "Date/Time Closed") then
    none
  else if !cols.any (fun c => c = some "Date Created") then
    none
  else
    some (df.map (enrichRow parseDate today cols))

/-- Observable outcome of one run of `main`: the arguments
`(archer_token, archer_incident_report_guid, url)` passed to
`fetch_all_report_pages` (`none` when the run returned before fetching), the
page requests issued, and the enriched table handed to the storage upload
(`none` when the run returned — or died in the enrichment stage — before
it). -/
structure RunTrace where
  fetchCall : Option (String × String × String)
  requests : List SoapRequest
  uploaded : Option (List EnrichedRow)

/-- `main` from `incident-report-timer/__init__.py`.  `INCIDENT_REPORT_TOKEN`
is the module-level constant imported from `config` (a repository file whose
value is opaque here, hence a parameter); `parseDate` and `today` stand for
the pandas date parser and `pd.Timestamp('now').normalize()`.  Each
`try/except` block that logs and returns early becomes a `match` on the
`Except` outcome; a successful fetch is followed by the enrichment stage,
whose uncaught exceptions kill the run before the upload `try` block; the
parquet encoding and the upload call are the storage boundary (their failure
is logged, not raised), so the trace records the enriched table that reaches
that boundary. -/
def main (INCIDENT_REPORT_TOKEN : String) (archer_prod_url : String)
    (vault : String → Except String String) (authResponse : AuthResponse)
    (server : List PageResponse) (parseDate : String → Option Nat)
    (today : Nat) : RunTrace :=
  match archer_auth_token vault archer_prod_url authResponse with
  | .error _ => ⟨none, [], none⟩
  | .ok archer_token =>
    match vault "archer-prod-incident-report-guid" with
    | .error _ => ⟨none, [], none⟩
    | .ok _archer_incident_report_guid =>
      match vault "archer-search-url" with
      | .error _ => ⟨none, [], none⟩
      | .ok url =>
        let f := fetch_all_report_pages archer_token INCIDENT_REPORT_TOKEN url
          server
        match f.result with
        | .error _ =>
            ⟨some (archer_token, INCIDENT_REPORT_TOKEN, url), f.requests, none⟩
        | .ok df =>
            ⟨some (archer_token, INCIDENT_REPORT_TOKEN, url), f.requests,
              enrichTable parseDate today df⟩

/-- Modelled from the spec, for the schema-stability refinement claim: the
fetch loop as the spec words it — "Built once per fetch session from the
first page's schema block" — with the first page's schema reused to normalize
every page. -/
def fetchFirstSchemaAux (report_headers : Schema) (pages : List Xml)
    (final_df : List Rec) : List Rec :=
  match pages with
  | [] => final_df
  | p :: rest =>
      if (findallDesc p "Record").isEmpty then final_df
      else
        fetchFirstSchemaAux report_headers rest
          (get_report_records p report_headers ++ final_df)

/-- Modelled from the spec: the whole-session table when the schema is
extracted once from the first page. -/
def fetchTableFirstPageSchema (pages : List Xml) : List Rec :=
  match pages with
  | [] => []
  | p :: _ => fetchFirstSchemaAux (get_report_headers p) pages []

/-! ### Concrete fixtures

Small concrete inputs on which the verified statements are exercised. -/

/-- A vault in which every key lookup succeeds. -/
def vaultOk : String → Except String String :=
  fun k => .ok ("secret-" ++ k)

/-- A vault in which every key lookup raises. -/
def vaultErr : String → Except String String :=
  fun _ => .error "boom"

/-- A production Archer URL (no `"uat"` substring). -/
def prodUrl0 : String := "https://archer.example.com/prod"

/-- A `Field` with empty text, an empty `Reference`, and a `Users/User`
descendant. -/
def c1field : Xml :=
  .elem "Field" [("id", "7")] none
    [ .elem "Reference" [] none []
    , .elem "Users" [] none
        [.elem "User" [("firstName", "Bo"), ("lastName", "B")]
          (some " bob@example.com ") []] ]

/-- A `Field` with non-empty text and list-value, reference and user
descendants all present. -/
def c9field : Xml :=
  .elem "Field" [("id", "3")] (some "  x  ")
    [ .elem "ListValues" [] none
        [.elem "ListValue" [("displayName", "L")] none []]
    , .elem "Reference" [] (some "R") []
    , .elem "Users" [] none
        [.elem "User" [("firstName", "F"), ("lastName", "G")] (some "u@e") []] ]

/-- A `Field` with empty text, a `ListValue` whose `displayName` is empty,
and a non-empty `Reference`. -/
def c10field : Xml :=
  .elem "Field" [("id", "9")] none
    [ .elem "ListValues" [] none
        [.elem "ListValue" [("displayName", "")] none []]
    , .elem "Reference" [] (some " ref ") [] ]

/-- A record with one plain-text field carrying the given value. -/
def mkRecord (fid : String) (v : String) : Xml :=
  .elem "Record" [] none [.elem "Field" [("id", fid)] (some v) []]

/-- A page with a one-field schema block (`id ↦ name`) and the given
records. -/
def mkPage (fid name : String) (records : List Xml) : Xml :=
  .elem "Records" []
    none
    (.elem "FieldDefinition" [("id", fid), ("name", name)] none [] :: records)

/-- A page with three records. -/
def page3 : Xml :=
  mkPage "1" "A" [mkRecord "1" "v1", mkRecord "1" "v2", mkRecord "1" "v3"]

/-- A page with two records. -/
def page2 : Xml :=
  mkPage "1" "A" [mkRecord "1" "v4", mkRecord "1" "v5"]

/-- A page with no records. -/
def page0 : Xml :=
  mkPage "1" "A" []

/-- First page of the schema-divergent session: schema `1 ↦ A`. -/
def pageSchemaA : Xml :=
  mkPage "1" "A" [mkRecord "1" "x"]

/-- Second page of the schema-divergent session: schema `1 ↦ B`. -/
def pageSchemaB : Xml :=
  mkPage "1" "B" [mkRecord "1" "y"]

/-- A date parser that rejects every string (the runs it serves never parse
a date). -/
def parseNone : String → Option Nat :=
  fun _ => none

/-- The vault of the C3 failing input: the report-identifier secret exists
and is `"VAULT-GUID"`; every other lookup also succeeds. -/
def vaultC3 : String → Except String String :=
  fun k => if k = "archer-prod-incident-report-guid" then .ok "VAULT-GUID"
    else .ok ("secret-" ++ k)

/-- A page whose single record carries the two enrichment date columns:
field 1 is named `Date Created` (value `01/01/2024`), field 2 is named
`Date/Time Closed` (value `05/01/2024`). -/
def pageDates : Xml :=
  .elem "Records" []
    none
    [ .elem "FieldDefinition" [("id", "1"), ("name", "Date Created")] none []
    , .elem "FieldDefinition" [("id", "2"), ("name", "Date/Time Closed")]
        none []
    , .elem "Record" [] none
        [ .elem "Field" [("id", "1")] (some "01/01/2024") []
        , .elem "Field" [("id", "2")] (some "05/01/2024") [] ] ]

/-- A two-page server session whose responses both carry HTTP status 500 but
whose bodies unwrap normally: the one-record date page, then an empty
page. -/
def server500 : List PageResponse :=
  [⟨500, .ok pageDates⟩, ⟨500, .ok page0⟩]

/-- The day-first date parser of the C8 run, resolving the two fixture
strings and coercing anything else to `NaT`. -/
def parseD : String → Option Nat :=
  fun s =>
    if s = "01/01/2024" then some (daysFromCivil 2024 1 1)
    else if s = "05/01/2024" then some (daysFromCivil 2024 1 5)
    else none

/-- A one-page server session whose response's body fails to unwrap. -/
def serverErr : List PageResponse :=
  [⟨500, .error "boom"⟩]

/-! ### Dictionary lemmas -/

theorem find?_map_overwrite {K V : Type} [DecidableEq K] (d : List (K × V))
    (k : K) (v : V) :
    (d.map (fun p => if p.1 = k then (k, v) else p)).find?
        (fun p => p.1 = k) =
      if d.any (fun p => p.1 = k) then some (k, v) else none := by
  induction d with
  | nil => simp
  | cons p rest ih =>
      by_cases h : p.1 = k
      · simp [h]
      · rw [List.map_cons, if_neg h, List.any_cons, decide_eq_false h,
          Bool.false_or, List.find?_cons_of_neg _ (by simpa using h), ih]

theorem optStrTruthy_some_empty : optStrTruthy (some "") = false := by
  decide

theorem optStrTruthy_some_of_ne {s : String} (h : s ≠ "") :
    optStrTruthy (some s) = true := by
  simp [optStrTruthy, h]

theorem dictGet_dictInsert_self {K V : Type} [DecidableEq K] (d : List (K × V))
    (k : K) (v : V) :
    dictGet (dictInsert d k v) k = some v := by
  unfold dictGet dictInsert
  by_cases h : d.any (fun p => p.1 = k) = true
  · rw [if_pos h, find?_map_overwrite, if_pos h]
    rfl
  · rw [if_neg h, List.find?_append]
    have hnone : d.find? (fun p => p.1 = k) = none := by
      rw [List.find?_eq_none]
      intro p hp
      simp only [List.any_eq_true] at h
      exact fun hk => h ⟨p, hp, hk⟩
    simp [hnone]

/-- Claim C9 (confirmed): for a `Field` whose direct trimmed text is
non-empty, the normalizer's value for that field is that trimmed text,
whatever `ListValues`, `Reference` or `Users` descendants the field also
has. -/
theorem c9_plain_text_wins (report_headers : Schema) (record_dict : Rec)
    (field : Xml) (h : pyTextStripOrEmpty field.text ≠ "") :
    dictGet (processField report_headers record_dict field)
        (resolveFieldName report_headers field) =
      some (pyTextStripOrEmpty field.text) := by
  simp only [processField, if_neg h]
  exact dictGet_dictInsert_self record_dict _ _

theorem c9_plain_text_wins_witness :
    dictGet (processField [] [] c9field) (resolveFieldName [] c9field) =
      some (pyTextStripOrEmpty c9field.text) :=
  c9_plain_text_wins [] [] c9field (by decide)

/-- Claim C1 (corrected), counterexample: a `Field` with empty text, no list
value and an empty `Reference` — yet with a `Users/User` descendant — gets
the user's email (not the empty string) as its value, and the
`_FirstName` entry shows the normalizer fell through to user extraction. -/
theorem c1_empty_reference_counterexample :
    pyTextStripOrEmpty c1field.text = "" ∧
    extract_list_value c1field = none ∧
    extract_reference c1field = some "" ∧
    dictGet (processField [] [] c1field) (resolveFieldName [] c1field) =
      some "bob@example.com" ∧
    dictGet (processField [] [] c1field) (some "Field_7_FirstName") =
      some "Bo" ∧
    ("bob@example.com" : String) ≠ "" := by
  decide

/-- Claim C1 (corrected, amended): for a `Field` with empty trimmed text, no
usable list value and an empty `Reference`, the empty reference string is
falsy, so the normalizer falls through to user extraction: the field's value
is the user's email when a `Users/User` descendant is present, and the empty
string otherwise. -/
theorem c1_empty_reference_falls_through (report_headers : Schema)
    (record_dict : Rec) (field : Xml)
    (htext : pyTextStripOrEmpty field.text = "")
    (hlist : optStrTruthy (extract_list_value field) = false)
    (href : extract_reference field = some "") :
    dictGet (processField report_headers record_dict field)
        (resolveFieldName report_headers field) =
      some (match extract_users field with
            | some u => u.email
            | none => "") := by
  cases hu : extract_users field <;>
    simp [processField, htext, hlist, href, hu, optStrTruthy_some_empty,
      dictGet_dictInsert_self]

theorem c1_empty_reference_falls_through_witness :
    dictGet (processField [] [] c1field) (resolveFieldName [] c1field) =
      some (match extract_users c1field with
            | some u => u.email
            | none => "") :=
  c1_empty_reference_falls_through [] [] c1field (by decide) (by decide)
    (by decide)

/-- Claim C10 (confirmed): a list label whose `displayName` is absent or
empty is treated as not found — the normalizer falls through to the
`Reference` and then `Users` extractors — and a list label is used as the
field's value exactly when the `displayName` attribute is a non-empty
string. -/
theorem c10_list_label_truthiness :
    (∀ (report_headers : Schema) (record_dict : Rec) (field : Xml),
       pyTextStripOrEmpty field.text = "" →
       optStrTruthy (extract_list_value field) = false →
       (optStrTruthy (extract_reference field) = true →
          dictGet (processField report_headers record_dict field)
              (resolveFieldName report_headers field) =
            extract_reference field)
       ∧ (optStrTruthy (extract_reference field) = false →
          ∀ u, extract_users field = some u →
            dictGet (processField report_headers record_dict field)
                (resolveFieldName report_headers field) = some u.email))
    ∧ (∀ (report_headers : Schema) (record_dict : Rec) (field : Xml)
         (s : String),
       pyTextStripOrEmpty field.text = "" →
       extract_list_value field = some s → s ≠ "" →
       dictGet (processField report_headers record_dict field)
           (resolveFieldName report_headers field) = some s) := by
  constructor
  · intro rh d field htext hlv
    constructor
    · intro href
      cases her : extract_reference field with
      | none => rw [her] at href; simp [optStrTruthy] at href
      | some s =>
          rw [her] at href
          have hs : s ≠ "" := by
            intro hc
            rw [hc] at href
            exact absurd href (by decide)
          simp [processField, htext, hlv, her, optStrTruthy_some_of_ne hs,
            dictGet_dictInsert_self]
    · intro href u hu
      simp [processField, htext, hlv, href, hu, dictGet_dictInsert_self]
  · intro rh d field s htext hlv hs
    simp [processField, htext, hlv, optStrTruthy_some_of_ne hs,
      dictGet_dictInsert_self]

theorem c10_list_label_truthiness_witness :
    dictGet (processField [] [] c10field) (resolveFieldName [] c10field) =
      extract_reference c10field :=
  (c10_list_label_truthiness.1 [] [] c10field (by decide) (by decide)).1
    (by decide)

/-- Claim C5 (confirmed): for every row of the assembled table, `Days Open`
is `closing − creation` in whole days when the `Date/Time Closed` value is
non-null, else `today − creation`; concretely, creation 2024-01-01 with
closing 2024-01-05 gives 4, and creation 2024-01-01 with null closing
evaluated on 2024-01-10 gives 9. -/
theorem c5_days_open :
    (∀ (today : Nat) (rows : List (Option Nat × Option Nat)) (i cr : Nat)
       (cl : Option Nat),
       rows[i]? = some (some cr, cl) →
       (daysOpenColumn today rows)[i]? =
         some (match cl with
               | some closed => some ((closed : Int) - (cr : Int))
               | none => some ((today : Int) - (cr : Int))))
    ∧ daysOpenColumn (daysFromCivil 2024 1 10)
        [(some (daysFromCivil 2024 1 1), some (daysFromCivil 2024 1 5)),
         (some (daysFromCivil 2024 1 1), none)] = [some 4, some 9] := by
  constructor
  · intro today rows i cr cl h
    cases cl <;> simp [daysOpenColumn, List.getElem?_map, h, daysOpenRow]
  · decide

theorem c5_days_open_witness :
    (daysOpenColumn 9 [(some 0, none)])[0]? = some (some 9) :=
  c5_days_open.1 9 [(some 0, none)] 0 0 none rfl

/-- The number of records the normalizer yields is the number of `Record`
descendants of the page. -/
theorem length_get_report_records (t : Xml) (h : Schema) :
    (get_report_records t h).length = (findallDesc t "Record").length := by
  simp [get_report_records]

/-- Claim C4 (confirmed): pagination stops exactly at the first page with
zero `Record` elements; a session whose successive pages hold 3, 2 and 0
records fetches exactly 2 pages of data (3 page requests in all), assembles
exactly 5 records, and is unaffected by whatever the server would have
answered after the empty page. -/
theorem c4_pagination_terminates (tok guid url : String) (p1 p2 p3 : Xml)
    (rest : List PageResponse)
    (h1 : (findallDesc p1 "Record").length = 3)
    (h2 : (findallDesc p2 "Record").length = 2)
    (h3 : (findallDesc p3 "Record").length = 0) :
    (fetch_all_report_pages tok guid url
        ([okPage p1, okPage p2, okPage p3] ++ rest)).dataPages = 2 ∧
    (∃ df, (fetch_all_report_pages tok guid url
        ([okPage p1, okPage p2, okPage p3] ++ rest)).result = .ok df ∧
      df.length = 5) ∧
    (fetch_all_report_pages tok guid url
        ([okPage p1, okPage p2, okPage p3] ++ rest)).requests.length = 3 := by
  have hnil3 : findallDesc p3 "Record" = [] := List.length_eq_zero.mp h3
  have e1 : (findallDesc p1 "Record").isEmpty = false := by
    cases hl : findallDesc p1 "Record"
    · rw [hl] at h1; simp at h1
    · rfl
  have e2 : (findallDesc p2 "Record").isEmpty = false := by
    cases hl : findallDesc p2 "Record"
    · rw [hl] at h2; simp at h2
    · rfl
  refine ⟨?_,
    ⟨get_report_records p2 (get_report_headers p2) ++
      (get_report_records p1 (get_report_headers p1) ++ []), ?_, ?_⟩, ?_⟩ <;>
    simp [fetch_all_report_pages, fetch_loop, okPage, e1, e2, hnil3,
      length_get_report_records, h1, h2]

theorem c4_pagination_terminates_witness :
    (fetch_all_report_pages "tok" "guid" "url"
        ([okPage page3, okPage page2, okPage page0] ++ [])).dataPages = 2 ∧
    (∃ df, (fetch_all_report_pages "tok" "guid" "url"
        ([okPage page3, okPage page2, okPage page0] ++ [])).result = .ok df ∧
      df.length = 5) ∧
    (fetch_all_report_pages "tok" "guid" "url"
        ([okPage page3, okPage page2, okPage page0] ++ [])).requests.length
      = 3 :=
  c4_pagination_terminates "tok" "guid" "url" page3 page2 page0 []
    (by decide) (by decide) (by decide)

/-- The fetch loop on pages that all unwrap: the returned table is the
reversed concatenation of the nonempty page prefix, prepended to the
accumulator. -/
theorem fetch_loop_ok_pages (tok guid : String) (pages : List Xml)
    (hterm : ∃ p ∈ pages, (findallDesc p "Record").isEmpty = true) :
    ∀ (n : Nat) (acc : List Rec) (reqs : List SoapRequest) (dp : Nat),
      (fetch_loop tok guid (pages.map okPage) n acc reqs dp).result =
        .ok ((((pages.takeWhile
              (fun p => !(findallDesc p "Record").isEmpty)).reverse).map
            (fun p => get_report_records p (get_report_headers p))).flatten
          ++ acc) := by
  induction pages with
  | nil => simp at hterm
  | cons p rest ih =>
      intro n acc reqs dp
      by_cases hp : (findallDesc p "Record").isEmpty = true
      · simp [fetch_loop, okPage, hp, List.takeWhile_cons]
      · have hterm' : ∃ q ∈ rest, (findallDesc q "Record").isEmpty = true := by
          rcases hterm with ⟨q, hq, hqe⟩
          rcases List.mem_cons.mp hq with rfl | hq'
          · exact absurd hqe hp
          · exact ⟨q, hq', hqe⟩
        simp [fetch_loop, okPage, hp, List.takeWhile_cons, ih hterm',
          List.flatten_append]

/-- Claim C6 (confirmed): the table assembly prepends each newly fetched
page to the accumulated table, so the final table is the concatenation of
the fetched pages' record lists in reverse page order, each page's records
keeping their document order. -/
theorem c6_pages_prepend (tok guid url : String) (pages : List Xml)
    (hterm : ∃ p ∈ pages, (findallDesc p "Record").isEmpty = true) :
    (fetch_all_report_pages tok guid url (pages.map okPage)).result =
      .ok ((((pages.takeWhile
            (fun p => !(findallDesc p "Record").isEmpty)).reverse).map
          (fun p => get_report_records p (get_report_headers p))).flatten) := by
  simpa [fetch_all_report_pages]
    using fetch_loop_ok_pages tok guid pages hterm 1 [] [] 0

theorem c6_pages_prepend_witness :
    (fetch_all_report_pages "tok" "guid" "url"
        ([page3, page2, page0].map okPage)).result =
      .ok (((([page3, page2, page0].takeWhile
            (fun p => !(findallDesc p "Record").isEmpty)).reverse).map
          (fun p => get_report_records p (get_report_headers p))).flatten) :=
  c6_pages_prepend "tok" "guid" "url" [page3, page2, page0]
    ⟨page0, by simp, by decide⟩

/-- Claim C7 (corrected), counterexample: a session whose second page carries
a different schema block (`1 ↦ B` instead of `1 ↦ A`) is normalized with the
schema re-extracted from each page, which differs from normalizing every
page with the first page's schema. -/
theorem c7_schema_counterexample :
    (fetch_all_report_pages "tok" "guid" "url"
        [okPage pageSchemaA, okPage pageSchemaB, okPage page0]).result =
      .ok [[(some "B", "y")], [(some "A", "x")]] ∧
    fetchTableFirstPageSchema [pageSchemaA, pageSchemaB, page0] =
      [[(some "A", "y")], [(some "A", "x")]] ∧
    ([[(some "B", "y")], [(some "A", "x")]] : List Rec) ≠
      [[(some "A", "y")], [(some "A", "x")]] :=
  ⟨rfl, rfl, by decide⟩

/-- The fetch loop under a stable schema: when every page's schema block
extracts to the same mapping, the per-page extraction coincides with reusing
that mapping for every page. -/
theorem fetch_loop_first_schema (tok guid : String) (hdrs : Schema) :
    ∀ (pages : List Xml), (∀ q ∈ pages, get_report_headers q = hdrs) →
      (∃ p ∈ pages, (findallDesc p "Record").isEmpty = true) →
      ∀ (n : Nat) (acc : List Rec) (reqs : List SoapRequest) (dp : Nat),
        (fetch_loop tok guid (pages.map okPage) n acc reqs dp).result =
          .ok (fetchFirstSchemaAux hdrs pages acc) := by
  intro pages
  induction pages with
  | nil => intro _ hterm; simp at hterm
  | cons p rest ih =>
      intro hstable hterm n acc reqs dp
      by_cases hp : (findallDesc p "Record").isEmpty = true
      · simp [fetch_loop, okPage, hp, fetchFirstSchemaAux]
      · have hterm' : ∃ q ∈ rest, (findallDesc q "Record").isEmpty = true := by
          rcases hterm with ⟨q, hq, hqe⟩
          rcases List.mem_cons.mp hq with rfl | hq'
          · exact absurd hqe hp
          · exact ⟨q, hq', hqe⟩
        have hstable' : ∀ q ∈ rest, get_report_headers q = hdrs :=
          fun q hq => hstable q (List.mem_cons_of_mem p hq)
        have hphdr : get_report_headers p = hdrs :=
          hstable p (List.mem_cons_self p rest)
        simp [fetch_loop, okPage, hp, fetchFirstSchemaAux, hphdr,
          ih hstable' hterm']

/-- Claim C7 (corrected, amended): when every page of the session extracts
the same field schema as the first page — the stability the spec assumes —
the implementation's per-page schema extraction yields exactly the table
obtained by building the schema once from the first page. -/
theorem c7_schema_stable_amended (tok guid url : String) (p0 : Xml)
    (rest : List Xml)
    (hstable : ∀ q ∈ p0 :: rest,
      get_report_headers q = get_report_headers p0)
    (hterm : ∃ p ∈ p0 :: rest, (findallDesc p "Record").isEmpty = true) :
    (fetch_all_report_pages tok guid url ((p0 :: rest).map okPage)).result =
      .ok (fetchTableFirstPageSchema (p0 :: rest)) := by
  simpa [fetch_all_report_pages, fetchTableFirstPageSchema]
    using fetch_loop_first_schema tok guid (get_report_headers p0)
      (p0 :: rest) hstable hterm 1 [] [] 0

theorem c7_schema_stable_amended_witness :
    (fetch_all_report_pages "tok" "guid" "url"
        ([page3, page0].map okPage)).result =
      .ok (fetchTableFirstPageSchema [page3, page0]) :=
  c7_schema_stable_amended "tok" "guid" "url" page3 [page0]
    (by decide) ⟨page0, by simp, by decide⟩

/-- Claim C2 (corrected), counterexample: with every secret lookup
succeeding, a status-500 auth handshake does not abort the run —
`archer_auth_token` returns the string `"Error: 500"` instead of raising,
and `main` calls `fetch_all_report_pages` with that string as its token. -/
theorem c2_auth_error_token_counterexample :
    archer_auth_token vaultOk prodUrl0 ⟨500, "tok"⟩ = .ok "Error: 500" ∧
    (500 : Nat) ≠ 200 ∧
    (main "GUID" prodUrl0 vaultOk ⟨500, "tok"⟩ [] parseNone 0).fetchCall =
      some ("Error: 500", "GUID", "secret-archer-search-url") :=
  ⟨rfl, by decide, rfl⟩

/-- Claim C2 (corrected, amended): if a secret lookup raises during the
handshake, `main` returns before any page fetch; but a non-200 auth response
does not raise — `archer_auth_token` returns the string `"Error: <status>"`
as the token, and whenever the handshake call returns a token and the two
remaining secret lookups succeed, `main` proceeds to call
`fetch_all_report_pages` with that token. -/
theorem c2_auth_failure_amended (cfg prodUrl : String)
    (vault : String → Except String String) (authResp : AuthResponse)
    (server : List PageResponse) (parseDate : String → Option Nat)
    (today : Nat) :
    ((∃ e, archer_auth_token vault prodUrl authResp = .error e) →
       (main cfg prodUrl vault authResp server parseDate today).fetchCall =
         none ∧
       (main cfg prodUrl vault authResp server parseDate today).requests = [])
    ∧ (∀ t, archer_auth_token vault prodUrl authResp = .ok t →
        authResp.status ≠ 200 → t = "Error: " ++ toString authResp.status)
    ∧ (∀ t g u, archer_auth_token vault prodUrl authResp = .ok t →
        vault "archer-prod-incident-report-guid" = .ok g →
        vault "archer-search-url" = .ok u →
        (main cfg prodUrl vault authResp server parseDate today).fetchCall =
          some (t, cfg, u)) := by
  refine ⟨?_, ?_, ?_⟩
  · rintro ⟨e, he⟩
    simp [main, he]
  · intro t ht hstatus
    unfold archer_auth_token at ht
    simp only [] at ht
    split at ht
    · cases ht
    split at ht
    · cases ht
    split at ht
    · cases ht
    rw [if_neg hstatus] at ht
    exact (Except.ok.inj ht).symm
  · intro t g u ht hg hu
    cases hres : (fetch_all_report_pages t cfg u server).result <;>
      simp [main, ht, hg, hu, hres]

theorem c2_auth_failure_amended_witness :
    (main "GUID" prodUrl0 vaultErr ⟨200, "tok"⟩ [] parseNone 0).fetchCall =
      none ∧
    (main "GUID" prodUrl0 vaultErr ⟨200, "tok"⟩ [] parseNone 0).requests =
      [] :=
  (c2_auth_failure_amended "GUID" prodUrl0 vaultErr ⟨200, "tok"⟩ [] parseNone
    0).1 ⟨"boom", rfl⟩

/-- Every page request the fetch loop issues carries the
`archer_incident_report_guid` argument it was started with. -/
theorem fetch_loop_requests_guid (tok guid : String) :
    ∀ (server : List PageResponse) (n : Nat) (acc : List Rec)
      (reqs : List SoapRequest) (dp : Nat),
      reqs.all (fun r => r.archer_incident_report_guid = guid) = true →
      ((fetch_loop tok guid server n acc reqs dp).requests.all
        (fun r => r.archer_incident_report_guid = guid)) = true := by
  intro server
  induction server with
  | nil => intro n acc reqs dp h; simpa [fetch_loop] using h
  | cons r rest ih =>
      intro n acc reqs dp h
      have hsnoc : ((reqs ++ [archer_incident_report_xml tok guid n]).all
          (fun r => r.archer_incident_report_guid = guid)) = true := by
        simp [List.all_append, h, archer_incident_report_xml]
      cases hr : r.unwrapped with
      | error e => simp [fetch_loop, hr, hsnoc]
      | ok xml =>
          by_cases he : (findallDesc xml "Record").isEmpty = true
          · simp [fetch_loop, hr, he, hsnoc]
          · simpa [fetch_loop, hr, he]
              using ih (n + 1)
                (get_report_records xml (get_report_headers xml) ++ acc)
                (reqs ++ [archer_incident_report_xml tok guid n]) (dp + 1)
                hsnoc

/-- Claim C3 (code_bug): `main` retrieves the report identifier from the
vault and then ignores it — the GUID passed to `fetch_all_report_pages`,
and hence substituted into every page request, is always the `config`
constant `INCIDENT_REPORT_TOKEN`; on a run where the vault returns
`"VAULT-GUID"` and the constant is `"CONFIG-TOKEN"`, every page request
carries `"CONFIG-TOKEN"`. -/
theorem c3_report_guid_from_config_not_vault :
    (∀ (cfg prodUrl : String) (vault : String → Except String String)
       (authResp : AuthResponse) (server : List PageResponse)
       (parseDate : String → Option Nat) (today : Nat),
       ((main cfg prodUrl vault authResp server parseDate today).fetchCall =
          none ∨
        ∃ t u, (main cfg prodUrl vault authResp server parseDate
            today).fetchCall =
          some (t, cfg, u))
       ∧ ((main cfg prodUrl vault authResp server parseDate
            today).requests.all
           (fun r => r.archer_incident_report_guid = cfg)) = true)
    ∧ vaultC3 "archer-prod-incident-report-guid" = .ok "VAULT-GUID"
    ∧ (main "CONFIG-TOKEN" prodUrl0 vaultC3 ⟨200, "tok"⟩
        [okPage page3, okPage page0] parseNone 0).fetchCall =
        some ("tok", "CONFIG-TOKEN", "secret-archer-search-url")
    ∧ ((main "CONFIG-TOKEN" prodUrl0 vaultC3 ⟨200, "tok"⟩
        [okPage page3, okPage page0] parseNone 0).requests.map
          (fun r => r.archer_incident_report_guid)) =
        ["CONFIG-TOKEN", "CONFIG-TOKEN"]
    ∧ ("CONFIG-TOKEN" : String) ≠ "VAULT-GUID" := by
  refine ⟨?_, rfl, rfl, rfl, by decide⟩
  intro cfg prodUrl vault authResp server parseDate today
  cases ha : archer_auth_token vault prodUrl authResp with
  | error e => simp [main, ha]
  | ok t =>
      cases hg : vault "archer-prod-incident-report-guid" with
      | error e => simp [main, ha, hg]
      | ok g =>
          cases hu : vault "archer-search-url" with
          | error e => simp [main, ha, hg, hu]
          | ok u =>
              have hreqs := fetch_loop_requests_guid t cfg server 1 [] [] 0 rfl
              cases hres : (fetch_all_report_pages t cfg u server).result <;>
                simp [main, ha, hg, hu, hres] <;>
                simpa [fetch_all_report_pages] using hreqs

/-- Claim C8 (corrected), counterexample: a session of responses that all
carry HTTP status 500 but whose bodies unwrap normally is fetched without
any abort — the fetch succeeds, the record survives the enrichment stage
(its columns include `Date Created` and `Date/Time Closed`), and `main`
hands the enriched table to the storage upload. -/
theorem c8_status_counterexample :
    (server500.all (fun r => r.status = 500)) = true ∧
    (fetch_all_report_pages "tok" "guid" "url" server500).result =
      .ok [[(some "Date Created", "01/01/2024"),
            (some "Date/Time Closed", "05/01/2024")]] ∧
    (main "GUID" prodUrl0 vaultOk ⟨200, "tok"⟩ server500 parseD
        (daysFromCivil 2024 1 10)).uploaded =
      some [[(some "Date Created", Cell.date (some (daysFromCivil 2024 1 1))),
             (some "Date/Time Closed",
               Cell.date (some (daysFromCivil 2024 1 5))),
             (some "Days Open", Cell.days (some 4))]] :=
  ⟨by decide, rfl, rfl⟩

/-- Claim C8 (corrected, amended): the fetch aborts exactly when a page
response's body fails to unwrap — the error propagates immediately and the
accumulated partial table is discarded; the HTTP status code is never
inspected (reassigning every status leaves the fetch outcome unchanged);
when the fetch aborts, `main` returns with nothing persisted; and anything
`main` does hand to the storage upload is the enrichment of a table a
successful fetch returned (the enrichment itself dies unpersisted on a
missing `Date/Time Closed` or `Date Created` column). -/
theorem c8_abort_amended :
    (∀ (tok guid : String) (stat : Nat) (e : String)
       (rest : List PageResponse) (n : Nat) (acc : List Rec)
       (reqs : List SoapRequest) (dp : Nat),
       (fetch_loop tok guid (⟨stat, .error e⟩ :: rest) n acc reqs dp).result =
         .error e)
    ∧ (∀ (tok guid url : String) (server : List PageResponse)
         (newStatus : PageResponse → Nat),
       fetch_all_report_pages tok guid url
           (server.map (fun r => ⟨newStatus r, r.unwrapped⟩)) =
         fetch_all_report_pages tok guid url server)
    ∧ (∀ (cfg prodUrl : String) (vault : String → Except String String)
         (authResp : AuthResponse) (server : List PageResponse)
         (parseDate : String → Option Nat) (today : Nat) (e t g u : String),
       (main cfg prodUrl vault authResp server parseDate today).fetchCall =
         some (t, g, u) →
       (fetch_all_report_pages t g u server).result = .error e →
       (main cfg prodUrl vault authResp server parseDate today).uploaded =
         none)
    ∧ (∀ (cfg prodUrl : String) (vault : String → Except String String)
         (authResp : AuthResponse) (server : List PageResponse)
         (parseDate : String → Option Nat) (today : Nat)
         (enriched : List EnrichedRow),
       (main cfg prodUrl vault authResp server parseDate today).uploaded =
         some enriched →
       ∃ t u df, (fetch_all_report_pages t cfg u server).result = .ok df ∧
         enrichTable parseDate today df = some enriched) := by
  refine ⟨?_, ?_, ?_, ?_⟩
  · intro tok guid stat e rest n acc reqs dp
    simp [fetch_loop]
  · intro tok guid url server newStatus
    suffices h : ∀ (srv : List PageResponse) (n : Nat) (acc : List Rec)
        (reqs : List SoapRequest) (dp : Nat),
        fetch_loop tok guid (srv.map (fun r => ⟨newStatus r, r.unwrapped⟩))
            n acc reqs dp =
          fetch_loop tok guid srv n acc reqs dp by
      simp [fetch_all_report_pages, h]
    intro srv
    induction srv with
    | nil => intro n acc reqs dp; rfl
    | cons r rest ih =>
        intro n acc reqs dp
        cases hr : r.unwrapped with
        | error e => simp [fetch_loop, hr]
        | ok xml =>
            by_cases he : (findallDesc xml "Record").isEmpty = true <;>
              simp [fetch_loop, hr, he, ih]
  · intro cfg prodUrl vault authResp server parseDate today e t g u hcall herr
    revert hcall herr
    cases ha : archer_auth_token vault prodUrl authResp with
    | error e0 => simp [main, ha]
    | ok t0 =>
        cases hg : vault "archer-prod-incident-report-guid" with
        | error e0 => simp [main, ha, hg]
        | ok g0 =>
            cases hu : vault "archer-search-url" with
            | error e0 => simp [main, ha, hg, hu]
            | ok u0 =>
                cases hres : (fetch_all_report_pages t0 cfg u0 server).result
                  with
                | error e0 => simp [main, ha, hg, hu, hres]
                | ok df0 =>
                    intro hcall herr
                    simp [main, ha, hg, hu, hres] at hcall
                    obtain ⟨rfl, rfl, rfl⟩ := hcall
                    rw [hres] at herr
                    cases herr
  · intro cfg prodUrl vault authResp server parseDate today enriched h
    revert h
    cases ha : archer_auth_token vault prodUrl authResp with
    | error e0 => simp [main, ha]
    | ok t0 =>
        cases hg : vault "archer-prod-incident-report-guid" with
        | error e0 => simp [main, ha, hg]
        | ok g0 =>
            cases hu : vault "archer-search-url" with
            | error e0 => simp [main, ha, hg, hu]
            | ok u0 =>
                cases hres : (fetch_all_report_pages t0 cfg u0 server).result
                  with
                | error e0 => simp [main, ha, hg, hu, hres]
                | ok df0 =>
                    intro h
                    simp [main, ha, hg, hu, hres] at h
                    exact ⟨t0, u0, df0, hres, h⟩

theorem c8_abort_amended_witness :
    (main "GUID" prodUrl0 vaultOk ⟨200, "tok"⟩ serverErr parseNone
        0).uploaded = none :=
  c8_abort_amended.2.2.1 "GUID" prodUrl0 vaultOk ⟨200, "tok"⟩ serverErr
    parseNone 0 "boom" "tok" "GUID" "secret-archer-search-url" rfl rfl

end Archer
